import Mathlib

/-!
Verification of the healthmonitor.io alerting and risk-scoring core.

The definitions below are shallow embeddings of the JavaScript source:
  - HealthData.assessStatus            (backend/models/HealthData.js)
  - Patient.isAbnormalReading          (backend/models/Patient.js)
  - predictHealthRisk                  (backend/services/predictionService.js)
  - calculateRiskScore                 (PostgreSQL predictions route)
  - POST /api/alerts, acknowledge      (alerts routes, Mongo and PostgreSQL)
  - POST /api/health-data ingestion    (backend/routes/healthData.js + schema)

Numbers are rationals.  A possibly-undefined JavaScript value is an
Option; a comparison against undefined is false, which jsGt / jsLt model.
-/

namespace HealthMonitor

/-- JavaScript strict comparison where the left side may be undefined:
an undefined operand makes every relational comparison false. -/
def jsGt (x : Option ℚ) (c : ℚ) : Bool :=
  match x with
  | some v => decide (c < v)
  | none => false

/-- JavaScript comparison for the left side possibly undefined, less-than. -/
def jsLt (x : Option ℚ) (c : ℚ) : Bool :=
  match x with
  | some v => decide (v < c)
  | none => false

/-- Overall status of a reading as set by assessStatus. -/
inductive Status where
  | normal
  | warning
  | critical
  deriving DecidableEq

/-- Severity attached to an alert entry. -/
inductive Severity where
  | info
  | warning
  | critical
  deriving DecidableEq

/-- One entry of the alerts array pushed by assessStatus / isAbnormalReading.
The interpolated numbers of the source messages are omitted. -/
structure StatusAlert where
  type : String
  severity : Severity
  message : String
  deriving DecidableEq

/-- Blood-pressure values of a reading (systolic / diastolic present together). -/
structure BPReading where
  systolic : ℚ
  diastolic : ℚ
  deriving DecidableEq

/-- A health reading as seen by assessStatus: the vital values
(heartRate.value etc.) may be undefined. -/
structure Reading where
  heartRate : Option ℚ
  temperature : Option ℚ
  spo2 : Option ℚ
  bloodPressure : Option BPReading
  deriving DecidableEq

/-- Warning plus critical bands for heart rate and temperature
(defaultThresholds entries of assessStatus). -/
structure BandThresh where
  min : ℚ
  max : ℚ
  criticalMax : ℚ
  criticalMin : ℚ
  deriving DecidableEq

/-- Thresholds for spo2 (lower bounds only). -/
structure Spo2Thresh where
  min : ℚ
  criticalMin : ℚ
  deriving DecidableEq

/-- Thresholds for blood pressure in assessStatus. -/
structure BPThresh where
  systolicMax : ℚ
  diastolicMax : ℚ
  systolicCritical : ℚ
  diastolicCritical : ℚ
  deriving DecidableEq

/-- The complete threshold table used by assessStatus after merging. -/
structure Thresholds where
  heartRate : BandThresh
  temperature : BandThresh
  spo2 : Spo2Thresh
  bloodPressure : BPThresh
  deriving DecidableEq

/-- defaultThresholds of HealthData.assessStatus. -/
def defaultThresholds : Thresholds :=
  { heartRate := { min := 60, max := 100, criticalMax := 120, criticalMin := 40 }
    temperature := { min := 36.1, max := 37.8, criticalMax := 38.5, criticalMin := 35 }
    spo2 := { min := 95, criticalMin := 90 }
    bloodPressure := { systolicMax := 140, diastolicMax := 90
                       systolicCritical := 180, diastolicCritical := 120 } }

/-- A caller-supplied thresholds object.  The source merges it over the
defaults with a top-level object spread, so each vital group is replaced
wholesale when present. -/
structure ThresholdOverrides where
  heartRate : Option BandThresh
  temperature : Option BandThresh
  spo2 : Option Spo2Thresh
  bloodPressure : Option BPThresh
  deriving DecidableEq

/-- The spread { ...defaultThresholds, ...thresholds } of assessStatus.
A null or absent thresholds argument leaves the defaults untouched. -/
def mergeThresholds : Option ThresholdOverrides → Thresholds
  | none => defaultThresholds
  | some o =>
      { heartRate := o.heartRate.getD defaultThresholds.heartRate
        temperature := o.temperature.getD defaultThresholds.temperature
        spo2 := o.spo2.getD defaultThresholds.spo2
        bloodPressure := o.bloodPressure.getD defaultThresholds.bloodPressure }

/-- Heart-rate branch of assessStatus: critical band first, then warning band. -/
def hrClass (r : Reading) (t : Thresholds) : Status :=
  if jsGt r.heartRate t.heartRate.criticalMax || jsLt r.heartRate t.heartRate.criticalMin then
    .critical
  else if jsGt r.heartRate t.heartRate.max || jsLt r.heartRate t.heartRate.min then
    .warning
  else
    .normal

/-- Temperature branch of assessStatus. -/
def tempClass (r : Reading) (t : Thresholds) : Status :=
  if jsGt r.temperature t.temperature.criticalMax || jsLt r.temperature t.temperature.criticalMin then
    .critical
  else if jsGt r.temperature t.temperature.max || jsLt r.temperature t.temperature.min then
    .warning
  else
    .normal

/-- SpO2 branch of assessStatus (lower bounds only). -/
def spo2Class (r : Reading) (t : Thresholds) : Status :=
  if jsLt r.spo2 t.spo2.criticalMin then .critical
  else if jsLt r.spo2 t.spo2.min then .warning
  else .normal

/-- Blood-pressure branch of assessStatus, guarded by presence of the
bloodPressure sub-document. -/
def bpClass (r : Reading) (t : Thresholds) : Status :=
  match r.bloodPressure with
  | none => .normal
  | some bp =>
      if bp.systolic > t.bloodPressure.systolicCritical
          ∨ bp.diastolic > t.bloodPressure.diastolicCritical then
        .critical
      else if bp.systolic > t.bloodPressure.systolicMax
          ∨ bp.diastolic > t.bloodPressure.diastolicMax then
        .warning
      else
        .normal

/-- The imperative status update of assessStatus: the critical branch
assigns unconditionally, the warning branch only when the running status
is not already critical. -/
def updateStatus (s : Status) (c : Status) : Status :=
  match c with
  | .critical => .critical
  | .warning => if s = .critical then s else .warning
  | .normal => s

/-- The alerts entry pushed for one vital by assessStatus. -/
def vitalAlerts (c : Status) (ty critMsg warnMsg : String) : List StatusAlert :=
  match c with
  | .critical => [{ type := ty, severity := .critical, message := critMsg }]
  | .warning => [{ type := ty, severity := .warning, message := warnMsg }]
  | .normal => []

/-- HealthData.assessStatus: merges the thresholds over the defaults,
then checks heart rate, temperature, SpO2 and blood pressure in order,
maintaining the running status and the alerts array. -/
def assessStatus (r : Reading) (thresholds : Option ThresholdOverrides) :
    Status × List StatusAlert :=
  let t := mergeThresholds thresholds
  let c1 := hrClass r t
  let c2 := tempClass r t
  let c3 := spo2Class r t
  let c4 := bpClass r t
  let status := updateStatus (updateStatus (updateStatus (updateStatus .normal c1) c2) c3) c4
  (status,
    vitalAlerts c1 "heartRate" "Critical heart rate detected" "Abnormal heart rate detected"
      ++ vitalAlerts c2 "temperature" "Critical temperature detected" "Abnormal temperature detected"
      ++ vitalAlerts c3 "spo2" "Critical oxygen saturation detected" "Low oxygen saturation detected"
      ++ vitalAlerts c4 "bloodPressure" "Critical blood pressure detected" "High blood pressure detected")

theorem updateStatus_chain (c1 c2 c3 c4 : Status) :
    updateStatus (updateStatus (updateStatus (updateStatus .normal c1) c2) c3) c4 =
      (if c1 = .critical ∨ c2 = .critical ∨ c3 = .critical ∨ c4 = .critical then .critical
       else if c1 = .warning ∨ c2 = .warning ∨ c3 = .warning ∨ c4 = .warning then .warning
       else .normal) := by
  cases c1 <;> cases c2 <;> cases c3 <;> cases c4 <;> decide

/-- C1: evaluating with a null/absent thresholds argument falls back to
the default thresholds and does not error; under the defaults a reading
with heart rate 105 assesses to warning and one with 130 to critical. -/
theorem assessStatus_null_defaults :
    mergeThresholds none = defaultThresholds ∧
    (assessStatus { heartRate := some 105, temperature := none, spo2 := none,
                    bloodPressure := none } none).1 = Status.warning ∧
    (assessStatus { heartRate := some 130, temperature := none, spo2 := none,
                    bloodPressure := none } none).1 = Status.critical := by
  refine ⟨rfl, ?_, ?_⟩ <;> decide

/-- C3: the overall status of assessStatus is critical exactly when some
vital classifies critical, otherwise warning exactly when some vital
classifies warning, otherwise normal, for every reading and every
threshold configuration. -/
theorem assessStatus_severity_dominance (r : Reading) (o : Option ThresholdOverrides) :
    (assessStatus r o).1 =
      (if hrClass r (mergeThresholds o) = .critical ∨ tempClass r (mergeThresholds o) = .critical
          ∨ spo2Class r (mergeThresholds o) = .critical ∨ bpClass r (mergeThresholds o) = .critical
       then .critical
       else if hrClass r (mergeThresholds o) = .warning ∨ tempClass r (mergeThresholds o) = .warning
          ∨ spo2Class r (mergeThresholds o) = .warning ∨ bpClass r (mergeThresholds o) = .warning
       then .warning
       else .normal) := by
  show updateStatus (updateStatus (updateStatus (updateStatus .normal _) _) _) _ = _
  exact updateStatus_chain _ _ _ _

/-! Patient.isAbnormalReading (backend/models/Patient.js). -/

/-- alertSettings.heartRate / alertSettings.temperature: warning band only. -/
structure MinMaxSetting where
  min : ℚ
  max : ℚ
  deriving DecidableEq

/-- alertSettings.spo2: lower bound only. -/
structure Spo2Setting where
  min : ℚ
  deriving DecidableEq

/-- alertSettings.bloodPressure: only the two maxima exist on the object. -/
structure BPSetting where
  systolicMax : ℚ
  diastolicMax : ℚ
  deriving DecidableEq

/-- The alertSettings of a patient as destructured by isAbnormalReading. -/
structure AlertSettings where
  heartRate : MinMaxSetting
  temperature : MinMaxSetting
  spo2 : Spo2Setting
  bloodPressure : BPSetting
  deriving DecidableEq

/-- Patient.isAbnormalReading.  The final branch of the source compares
bloodPressure.systolic and bloodPressure.diastolic where bloodPressure is
the destructured settings object: those fields do not exist on it, so both
reads yield undefined and the comparisons are modelled on none.  The
interpolated numbers of the messages are omitted. -/
def isAbnormalReading (settings : AlertSettings) (reading : Reading) : List StatusAlert :=
  let heartRate := settings.heartRate
  let temperature := settings.temperature
  let spo2 := settings.spo2
  let bloodPressure := settings.bloodPressure
  (if jsLt reading.heartRate heartRate.min || jsGt reading.heartRate heartRate.max then
      [{ type := "heartRate", severity := .critical, message := "Abnormal heart rate" }]
    else [])
  ++ (if jsLt reading.temperature temperature.min || jsGt reading.temperature temperature.max then
      [{ type := "temperature",
         severity := if jsGt reading.temperature 38 then .critical else .warning,
         message := "Abnormal temperature" }]
    else [])
  ++ (if jsLt reading.spo2 spo2.min then
      [{ type := "spo2", severity := .critical, message := "Low blood oxygen" }]
    else [])
  -- if (bloodPressure): the settings sub-object is always truthy
  ++ (if jsGt (none : Option ℚ) bloodPressure.systolicMax
          || jsGt (none : Option ℚ) bloodPressure.diastolicMax then
      [{ type := "bloodPressure", severity := .critical, message := "High blood pressure" }]
    else [])

/-- C10: isAbnormalReading never produces a bloodPressure alert candidate,
for every settings configuration and every reading, and its output does
not depend on the blood-pressure values of the reading at all. -/
theorem isAbnormalReading_no_bloodPressure (settings : AlertSettings) (reading : Reading) :
    (isAbnormalReading settings reading).filter (fun a => a.type == "bloodPressure") = [] ∧
    ∀ bp : Option BPReading,
      isAbnormalReading settings { reading with bloodPressure := bp } =
        isAbnormalReading settings reading := by
  constructor
  · simp only [isAbnormalReading, jsGt, List.filter_append]
    split <;> split <;> split <;> simp
  · intro bp
    rfl

/-! predictHealthRisk (backend/services/predictionService.js).  The
score and factors accumulations walk the same conditions, so they are
split into one contribution and one factor function per block; every
condition is independent of the running accumulator in the source. -/

/-- A stored reading as consumed by predictHealthRisk.  The value fields
may be undefined; the source reads them as r.heartRate?.value || 0. -/
structure HReading where
  heartRate : Option ℚ
  temperature : Option ℚ
  spo2 : Option ℚ
  bloodPressure : Option BPReading
  status : String
  deriving DecidableEq

/-- r.heartRate?.value || 0 (a missing value contributes 0 to the sums). -/
def hrVal (r : HReading) : ℚ := r.heartRate.getD 0

/-- r.temperature?.value || 0. -/
def tempVal (r : HReading) : ℚ := r.temperature.getD 0

/-- r.spo2?.value || 0. -/
def spo2Val (r : HReading) : ℚ := r.spo2.getD 0

/-- Mean of f over a list, as the source computes sum / length. -/
def avgOf (f : HReading → ℚ) (l : List HReading) : ℚ :=
  (l.map f).sum / l.length

/-- recent = historicalReadings.slice(0, 10). -/
def recentOf (rs : List HReading) : List HReading := rs.take 10

/-- older = historicalReadings.slice(10, 20). -/
def olderOf (rs : List HReading) : List HReading := (rs.drop 10).take 10

/-- avgHeartRate over the recent window. -/
def avgHeartRate (rs : List HReading) : ℚ := avgOf hrVal (recentOf rs)

/-- olderAvg heart rate over the older window. -/
def olderAvgHeartRate (rs : List HReading) : ℚ := avgOf hrVal (olderOf rs)

/-- avgTemp over the recent window. -/
def avgTemp (rs : List HReading) : ℚ := avgOf tempVal (recentOf rs)

/-- avgSpo2 over the recent window. -/
def avgSpo2 (rs : List HReading) : ℚ := avgOf spo2Val (recentOf rs)

/-- recentBP = recent.filter(r => r.bloodPressure?.systolic): the filter
keeps readings whose systolic value is present and truthy (nonzero). -/
def recentBP (rs : List HReading) : List HReading :=
  (recentOf rs).filter fun r =>
    match r.bloodPressure with
    | some bp => bp.systolic != 0
    | none => false

/-- avgSystolic over recentBP. -/
def avgSystolic (rs : List HReading) : ℚ :=
  avgOf (fun r => (r.bloodPressure.map BPReading.systolic).getD 0) (recentBP rs)

/-- avgDiastolic over recentBP. -/
def avgDiastolic (rs : List HReading) : ℚ :=
  avgOf (fun r => (r.bloodPressure.map BPReading.diastolic).getD 0) (recentBP rs)

/-- alertCount = recent.filter(r => r.status critical or warning).length. -/
def alertCount (rs : List HReading) : ℕ :=
  ((recentOf rs).filter fun r => r.status == "critical" || r.status == "warning").length

/-- Heart-rate score contribution of predictHealthRisk. -/
def hrContribution (rs : List HReading) : ℚ :=
  if avgHeartRate rs > 100 then 20
  else if avgHeartRate rs < 60 then 15
  else 0

/-- Heart-rate trend contribution: only when the older window is nonempty. -/
def trendContribution (rs : List HReading) : ℚ :=
  if (olderOf rs).length > 0 then
    if avgHeartRate rs > olderAvgHeartRate rs * 1.1 then 10 else 0
  else 0

/-- Temperature score contribution. -/
def tempContribution (rs : List HReading) : ℚ :=
  if avgTemp rs > 37.5 then 25
  else if avgTemp rs > 37.2 then 10
  else 0

/-- SpO2 score contribution. -/
def spo2Contribution (rs : List HReading) : ℚ :=
  if avgSpo2 rs < 92 then 30
  else if avgSpo2 rs < 95 then 15
  else 0

/-- Blood-pressure score contribution, guarded by recentBP.length > 0. -/
def bpContribution (rs : List HReading) : ℚ :=
  if (recentBP rs).length > 0 then
    if avgSystolic rs > 140 ∨ avgDiastolic rs > 90 then 20 else 0
  else 0

/-- Alert-pattern contribution: alertCount > recent.length * 0.3. -/
def alertContribution (rs : List HReading) : ℚ :=
  if (alertCount rs : ℚ) > ((recentOf rs).length : ℚ) * 0.3 then 15 else 0

/-- The risk score accumulated before the final clamp; the else branch of
the source adds nothing when there is no historical data. -/
def rawRiskScore (rs : List HReading) : ℚ :=
  if rs.length > 0 then
    hrContribution rs + trendContribution rs + tempContribution rs
      + spo2Contribution rs + bpContribution rs + alertContribution rs
  else 0

/-- Payload attached to a factor: a number, a text, a systolic/diastolic
pair, or the trend marker (trend: up in the source). -/
inductive FactorVal where
  | num (x : ℚ)
  | txt (s : String)
  | pair (a b : ℚ)
  | trendUp
  deriving DecidableEq

/-- One element of the factors array of predictHealthRisk. -/
structure Factor where
  factor : String
  severity : String
  val : FactorVal
  deriving DecidableEq

/-- Heart-rate factor block. -/
def hrFactors (rs : List HReading) : List Factor :=
  if avgHeartRate rs > 100 then
    [{ factor := "Elevated Heart Rate", severity := "medium", val := .num (avgHeartRate rs) }]
  else if avgHeartRate rs < 60 then
    [{ factor := "Low Heart Rate", severity := "medium", val := .num (avgHeartRate rs) }]
  else []

/-- Heart-rate trend factor block. -/
def trendFactors (rs : List HReading) : List Factor :=
  if (olderOf rs).length > 0 then
    if avgHeartRate rs > olderAvgHeartRate rs * 1.1 then
      [{ factor := "Heart Rate Increasing", severity := "low", val := .trendUp }]
    else []
  else []

/-- Temperature factor block. -/
def tempFactors (rs : List HReading) : List Factor :=
  if avgTemp rs > 37.5 then
    [{ factor := "Fever Detected", severity := "high", val := .num (avgTemp rs) }]
  else if avgTemp rs > 37.2 then
    [{ factor := "Elevated Temperature", severity := "low", val := .num (avgTemp rs) }]
  else []

/-- SpO2 factor block. -/
def spo2Factors (rs : List HReading) : List Factor :=
  if avgSpo2 rs < 92 then
    [{ factor := "Low Blood Oxygen", severity := "critical", val := .num (avgSpo2 rs) }]
  else if avgSpo2 rs < 95 then
    [{ factor := "Reduced Oxygen Saturation", severity := "medium", val := .num (avgSpo2 rs) }]
  else []

/-- Blood-pressure factor block. -/
def bpFactors (rs : List HReading) : List Factor :=
  if (recentBP rs).length > 0 then
    if avgSystolic rs > 140 ∨ avgDiastolic rs > 90 then
      [{ factor := "High Blood Pressure", severity := "medium",
         val := .pair (avgSystolic rs) (avgDiastolic rs) }]
    else []
  else []

/-- Alert-pattern factor block. -/
def alertFactors (rs : List HReading) : List Factor :=
  if (alertCount rs : ℚ) > ((recentOf rs).length : ℚ) * 0.3 then
    [{ factor := "Frequent Alerts", severity := "medium", val := .num (alertCount rs) }]
  else []

/-- The factors array of predictHealthRisk; with no historical data only
the baseline Insufficient Data factor is emitted. -/
def riskFactors (rs : List HReading) : List Factor :=
  if rs.length > 0 then
    hrFactors rs ++ trendFactors rs ++ tempFactors rs ++ spo2Factors rs
      ++ bpFactors rs ++ alertFactors rs
  else
    [{ factor := "Insufficient Data", severity := "info", val := .txt "Using baseline assessment" }]

/-- riskLevel determination of predictHealthRisk. -/
def riskLevelFor (riskScore : ℚ) : String :=
  if riskScore ≥ 70 then "critical"
  else if riskScore ≥ 50 then "high"
  else if riskScore ≥ 30 then "medium"
  else "low"

/-- Recommendation string keyed off the risk level. -/
def recommendationFor (riskLevel : String) : String :=
  if riskLevel == "critical" then
    "URGENT: Immediate medical attention required."
  else if riskLevel == "high" then
    "High priority: Schedule immediate consultation with healthcare provider."
  else if riskLevel == "medium" then
    "Schedule follow-up appointment within 24-48 hours for evaluation."
  else
    "Continue regular monitoring."

/-- The result of predictHealthRisk (predictionId, timestamp, model and
features of the source carry no logic and are omitted). -/
structure Prediction where
  riskLevel : String
  riskScore : ℚ
  factors : List Factor
  recommendation : String
  confidence : ℚ
  deriving DecidableEq

/-- predictHealthRisk: accumulate the contributions, clamp the score with
Math.min(Math.max(riskScore, 0), 100), derive level, recommendation, and
a confidence of 0.85 with at least 10 readings and 0.5 otherwise. -/
def predictHealthRisk (rs : List HReading) : Prediction :=
  let riskScore := min (max (rawRiskScore rs) 0) 100
  { riskLevel := riskLevelFor riskScore
    riskScore := riskScore
    factors := riskFactors rs
    recommendation := recommendationFor (riskLevelFor riskScore)
    confidence := if rs.length ≥ 10 then 0.85 else 0.5 }

/-! calculateRiskScore (PostgreSQL predictions route).  The vitals come
from SQL columns and may be NULL; JavaScript coerces null to 0 in
relational comparisons, which nval models. -/

/-- The healthData object assembled by the PostgreSQL predictions route. -/
structure PHealthData where
  heartRate : Option ℚ
  temperature : Option ℚ
  spo2 : Option ℚ
  bloodPressure : Option BPReading
  deriving DecidableEq

/-- A SQL NULL behaves as 0 in a JavaScript relational comparison. -/
def nval (x : Option ℚ) : ℚ := x.getD 0

/-- One element of the factors array of calculateRiskScore (the value
payload carries no logic and is omitted). -/
structure PFactor where
  factor : String
  weight : ℚ
  deriving DecidableEq

/-- Heart-rate block of calculateRiskScore. -/
def pgHrRisk (hd : PHealthData) : ℚ :=
  if nval hd.heartRate > 100 then 30
  else if nval hd.heartRate > 90 then 15
  else if nval hd.heartRate < 50 then 20
  else 0

/-- Heart-rate factors of calculateRiskScore. -/
def pgHrFactors (hd : PHealthData) : List PFactor :=
  if nval hd.heartRate > 100 then [{ factor := "High Heart Rate", weight := 30 }]
  else if nval hd.heartRate > 90 then [{ factor := "Elevated Heart Rate", weight := 15 }]
  else if nval hd.heartRate < 50 then [{ factor := "Low Heart Rate", weight := 20 }]
  else []

/-- Temperature block of calculateRiskScore. -/
def pgTempRisk (hd : PHealthData) : ℚ :=
  if nval hd.temperature > 38 then 25
  else if nval hd.temperature > 37.5 then 10
  else 0

/-- Temperature factors of calculateRiskScore. -/
def pgTempFactors (hd : PHealthData) : List PFactor :=
  if nval hd.temperature > 38 then [{ factor := "Fever", weight := 25 }]
  else if nval hd.temperature > 37.5 then [{ factor := "Slight Fever", weight := 10 }]
  else []

/-- SpO2 block of calculateRiskScore. -/
def pgSpo2Risk (hd : PHealthData) : ℚ :=
  if nval hd.spo2 < 90 then 35
  else if nval hd.spo2 < 95 then 15
  else 0

/-- SpO2 factors of calculateRiskScore. -/
def pgSpo2Factors (hd : PHealthData) : List PFactor :=
  if nval hd.spo2 < 90 then [{ factor := "Low Oxygen", weight := 35 }]
  else if nval hd.spo2 < 95 then [{ factor := "Below Normal Oxygen", weight := 15 }]
  else []

/-- Blood-pressure block of calculateRiskScore: the systolic and
diastolic checks are independent ifs. -/
def pgBpRisk (hd : PHealthData) : ℚ :=
  match hd.bloodPressure with
  | none => 0
  | some bp =>
      (if bp.systolic > 140 then 20 else 0) + (if bp.diastolic > 90 then 15 else 0)

/-- Blood-pressure factors of calculateRiskScore. -/
def pgBpFactors (hd : PHealthData) : List PFactor :=
  match hd.bloodPressure with
  | none => []
  | some bp =>
      (if bp.systolic > 140 then [{ factor := "High Systolic BP", weight := 20 }] else [])
        ++ (if bp.diastolic > 90 then [{ factor := "High Diastolic BP", weight := 15 }] else [])

/-- The riskScore accumulated by calculateRiskScore before the clamp. -/
def pgRawRisk (hd : PHealthData) : ℚ :=
  pgHrRisk hd + pgTempRisk hd + pgSpo2Risk hd + pgBpRisk hd

/-- riskLevel determination of calculateRiskScore: note the 20 and 40
boundaries and the level name moderate. -/
def pgRiskLevel (riskScore : ℚ) : String :=
  if riskScore ≥ 70 then "critical"
  else if riskScore ≥ 40 then "high"
  else if riskScore ≥ 20 then "moderate"
  else "low"

/-- Return value of calculateRiskScore. -/
structure RiskResult where
  score : ℚ
  level : String
  factors : List PFactor
  deriving DecidableEq

/-- calculateRiskScore: the level is derived from the unclamped sum and
the returned score is Math.min(riskScore, 100). -/
def calculateRiskScore (hd : PHealthData) : RiskResult :=
  { score := min (pgRawRisk hd) 100
    level := pgRiskLevel (pgRawRisk hd)
    factors := pgHrFactors hd ++ pgTempFactors hd ++ pgSpo2Factors hd ++ pgBpFactors hd }

/-- C4 counterexample: a reading with heart rate 101 and otherwise normal
vitals gives the PostgreSQL scorer a risk score of exactly 30, yet its
level is moderate, not the medium that the 30-49 band of the claim
requires. -/
theorem calculateRiskScore_boundary_counterexample :
    (calculateRiskScore { heartRate := some 101, temperature := some 36,
                          spo2 := some 97, bloodPressure := none }).score = 30 ∧
    (calculateRiskScore { heartRate := some 101, temperature := some 36,
                          spo2 := some 97, bloodPressure := none }).level ≠ "medium" ∧
    (calculateRiskScore { heartRate := some 101, temperature := some 36,
                          spo2 := some 97, bloodPressure := none }).level = "moderate" := by
  refine ⟨?_, ?_, ?_⟩
  · norm_num [calculateRiskScore, pgRawRisk, pgHrRisk, pgTempRisk, pgSpo2Risk, pgBpRisk,
      nval, min_def]
  · norm_num [calculateRiskScore, pgRawRisk, pgHrRisk, pgTempRisk, pgSpo2Risk, pgBpRisk,
      nval, pgRiskLevel]
    decide
  · norm_num [calculateRiskScore, pgRawRisk, pgHrRisk, pgTempRisk, pgSpo2Risk, pgBpRisk,
      nval, pgRiskLevel]

/-- C4 amended: the predictHealthRisk variant maps its clamped score by
the boundaries low 0-29, medium 30-49, high 50-69, critical 70-100, but
the calculateRiskScore variant instead uses low below 20, moderate 20-39,
high 40-69, critical at 70 and above. -/
theorem riskLevel_boundaries_amended :
    (∀ rs : List HReading,
      (predictHealthRisk rs).riskLevel =
        (if 70 ≤ (predictHealthRisk rs).riskScore then "critical"
         else if 50 ≤ (predictHealthRisk rs).riskScore then "high"
         else if 30 ≤ (predictHealthRisk rs).riskScore then "medium"
         else "low")) ∧
    (∀ hd : PHealthData,
      (calculateRiskScore hd).level =
        (if 70 ≤ (calculateRiskScore hd).score then "critical"
         else if 40 ≤ (calculateRiskScore hd).score then "high"
         else if 20 ≤ (calculateRiskScore hd).score then "moderate"
         else "low")) := by
  constructor
  · intro rs
    simp only [predictHealthRisk, riskLevelFor, ge_iff_le]
  · intro hd
    simp only [calculateRiskScore, pgRiskLevel, ge_iff_le]
    rcases le_or_lt (pgRawRisk hd) 100 with h | h
    · rw [min_eq_left h]
    · rw [min_eq_right h.le]
      have h70 : (70 : ℚ) ≤ pgRawRisk hd := by linarith
      rw [if_pos h70, if_pos (by norm_num : (70 : ℚ) ≤ 100)]

theorem pgHrRisk_nonneg (hd : PHealthData) : 0 ≤ pgHrRisk hd := by
  unfold pgHrRisk; split_ifs <;> norm_num

theorem pgTempRisk_nonneg (hd : PHealthData) : 0 ≤ pgTempRisk hd := by
  unfold pgTempRisk; split_ifs <;> norm_num

theorem pgSpo2Risk_nonneg (hd : PHealthData) : 0 ≤ pgSpo2Risk hd := by
  unfold pgSpo2Risk; split_ifs <;> norm_num

theorem pgBpRisk_nonneg (hd : PHealthData) : 0 ≤ pgBpRisk hd := by
  cases h : hd.bloodPressure <;> simp only [pgBpRisk, h]
  · norm_num
  · split_ifs <;> norm_num

theorem pgRawRisk_nonneg (hd : PHealthData) : 0 ≤ pgRawRisk hd :=
  add_nonneg (add_nonneg (add_nonneg (pgHrRisk_nonneg hd) (pgTempRisk_nonneg hd))
    (pgSpo2Risk_nonneg hd)) (pgBpRisk_nonneg hd)

/-- C5: both risk scorers return a score inside the closed interval
0 to 100, and whenever the raw weighted sum exceeds 100 the returned
score is exactly 100. -/
theorem riskScore_clamped :
    (∀ rs : List HReading,
      0 ≤ (predictHealthRisk rs).riskScore ∧ (predictHealthRisk rs).riskScore ≤ 100 ∧
        (100 < rawRiskScore rs → (predictHealthRisk rs).riskScore = 100)) ∧
    (∀ hd : PHealthData,
      0 ≤ (calculateRiskScore hd).score ∧ (calculateRiskScore hd).score ≤ 100 ∧
        (100 < pgRawRisk hd → (calculateRiskScore hd).score = 100)) := by
  constructor
  · intro rs
    simp only [predictHealthRisk]
    refine ⟨le_min (le_max_right _ _) (by norm_num), min_le_right _ _, fun h => ?_⟩
    rw [max_eq_left (by linarith : (0 : ℚ) ≤ rawRiskScore rs),
      min_eq_right (by linarith : (100 : ℚ) ≤ rawRiskScore rs)]
  · intro hd
    simp only [calculateRiskScore]
    refine ⟨le_min (pgRawRisk_nonneg hd) (by norm_num), min_le_right _ _,
      fun h => min_eq_right (by linarith)⟩

/-- A reading whose vitals trip every contribution of predictHealthRisk. -/
def surgeReading : HReading :=
  { heartRate := some 120, temperature := some 39, spo2 := some 85,
    bloodPressure := some { systolic := 160, diastolic := 100 }, status := "critical" }

/-- A row whose vitals trip every contribution of calculateRiskScore. -/
def surgeData : PHealthData :=
  { heartRate := some 101, temperature := some 39, spo2 := some 85,
    bloodPressure := some { systolic := 150, diastolic := 95 } }

theorem riskScore_clamped_witness :
    (predictHealthRisk [surgeReading]).riskScore = 100 ∧
    (calculateRiskScore surgeData).score = 100 :=
  ⟨(riskScore_clamped.1 [surgeReading]).2.2 (by
      norm_num [rawRiskScore, hrContribution, trendContribution, tempContribution,
        spo2Contribution, bpContribution, alertContribution, avgHeartRate,
        olderAvgHeartRate, avgTemp, avgSpo2, avgSystolic, avgDiastolic, avgOf,
        recentOf, olderOf, recentBP, alertCount, hrVal, tempVal, spo2Val, surgeReading]),
   (riskScore_clamped.2 surgeData).2.2 (by
      norm_num [pgRawRisk, pgHrRisk, pgTempRisk, pgSpo2Risk, pgBpRisk, nval, surgeData])⟩

/-- A single reading with all vitals in their normal bands. -/
def quietReading : HReading :=
  { heartRate := some 80, temperature := some 36.5, spo2 := some 97,
    bloodPressure := none, status := "normal" }

/-- C6 counterexample: one reading is fewer than 10, and the scorer
reports confidence 0.5 for it, but its factors list does not contain the
Insufficient Data info factor: that factor is only emitted when there are
no readings at all. -/
theorem insufficientData_counterexample :
    [quietReading].length < 10 ∧
    (predictHealthRisk [quietReading]).confidence = 0.5 ∧
    ¬ ∃ f ∈ (predictHealthRisk [quietReading]).factors,
        f.factor = "Insufficient Data" ∧ f.severity = "info" := by
  refine ⟨by norm_num, ?_, ?_⟩
  · norm_num [predictHealthRisk]
  · norm_num [predictHealthRisk, riskFactors, hrFactors, trendFactors, tempFactors,
      spo2Factors, bpFactors, alertFactors, avgHeartRate, olderAvgHeartRate, avgTemp,
      avgSpo2, avgSystolic, avgDiastolic, avgOf, recentOf, olderOf, recentBP,
      alertCount, hrVal, tempVal, spo2Val, quietReading]
    intro _ habs
    exact absurd habs (by decide)

/-- C6 amended: the Insufficient Data info factor is emitted exactly when
there are zero readings; for every window of fewer than 10 readings the
trend contribution and trend factor are skipped and the confidence is
0.5 instead of 0.85. -/
theorem insufficientData_amended :
    ((predictHealthRisk []).factors =
        [{ factor := "Insufficient Data", severity := "info",
           val := .txt "Using baseline assessment" }] ∧
      (predictHealthRisk []).confidence = 0.5) ∧
    (∀ rs : List HReading, rs.length < 10 →
      (predictHealthRisk rs).confidence = 0.5 ∧
      trendContribution rs = 0 ∧ trendFactors rs = []) := by
  constructor
  · exact ⟨by simp [predictHealthRisk, riskFactors], by norm_num [predictHealthRisk]⟩
  · intro rs h
    have hdrop : rs.drop 10 = [] := List.drop_eq_nil_of_le (by omega)
    have holder : olderOf rs = [] := by simp [olderOf, hdrop]
    refine ⟨?_, ?_, ?_⟩
    · simp only [predictHealthRisk]
      rw [if_neg (by omega)]
    · simp [trendContribution, holder]
    · simp [trendFactors, holder]

theorem insufficientData_amended_witness :
    (predictHealthRisk [quietReading]).confidence = 0.5 ∧
    trendContribution [quietReading] = 0 ∧ trendFactors [quietReading] = [] :=
  insufficientData_amended.2 [quietReading] (by norm_num)

/-! Alert rows and the alerts routes (Mongo and PostgreSQL variants).
The datastore is a list of rows; asynchronous time is passed in as the
now parameter; the generated alert id is passed in as genId. -/

/-- An alert row: the union of the columns touched by the two variants
(Mongo assignedTo.userId and PostgreSQL acknowledged_by are both modelled
by acknowledgedBy). -/
structure AlertRow where
  alertId : String
  patientId : String
  type : String
  severity : String
  status : String
  acknowledgedBy : Option String
  acknowledgedAt : Option ℕ
  deriving DecidableEq

/-- Request body of POST /api/alerts in the PostgreSQL variant. -/
structure RaiseReq where
  alertId : Option String
  patientId : String
  type : String
  severity : String
  title : String
  message : String
  status : Option String
  deriving DecidableEq

/-- The row inserted by the PostgreSQL POST /api/alerts: the alert id is
the provided one or the generated one, the status the provided one or
active. -/
def mkAlertRow (genId : String) (req : RaiseReq) : AlertRow :=
  { alertId := req.alertId.getD genId
    patientId := req.patientId
    type := req.type
    severity := req.severity
    status := req.status.getD "active"
    acknowledgedBy := none
    acknowledgedAt := none }

/-- POST /api/alerts (PostgreSQL variant): a single unconditional INSERT,
returning the new row; no lookup of existing alerts happens. -/
def raiseAlert (st : List AlertRow) (genId : String) (req : RaiseReq) :
    List AlertRow × AlertRow :=
  let row := mkAlertRow genId req
  (st ++ [row], row)

/-- The active alerts of one (patientId, type) pair in the store. -/
def activeAlerts (st : List AlertRow) (pid ty : String) : List AlertRow :=
  st.filter fun a => a.patientId == pid && a.type == ty && a.status == "active"

/-- A duplicate-raise request used for the de-duplication claims. -/
def dupReq : RaiseReq :=
  { alertId := none, patientId := "P-001", type := "heartRate", severity := "critical",
    title := "High heart rate", message := "Heart rate above threshold", status := none }

/-- C2 counterexample: raising the same (patientId, type) candidate twice
in immediate succession leaves two active alert rows for that pair, not
one: the route performs no suppression-window lookup. -/
theorem raiseAlert_duplicate_counterexample :
    (activeAlerts (raiseAlert (raiseAlert [] "ALT-1" dupReq).1 "ALT-2" dupReq).1
        "P-001" "heartRate").length = 2 ∧
    (activeAlerts (raiseAlert (raiseAlert [] "ALT-1" dupReq).1 "ALT-2" dupReq).1
        "P-001" "heartRate").length ≠ 1 := by
  refine ⟨?_, ?_⟩ <;> decide

/-- C2 amended: every raise request unconditionally appends a new alert
row, so two raise requests of the same (patientId, type) add two active
rows for that pair; no de-duplication or suppression window exists. -/
theorem raiseAlert_no_dedup (st : List AlertRow) (g1 g2 : String) (req : RaiseReq)
    (h : req.status = none) :
    (raiseAlert st g1 req).1 = st ++ [mkAlertRow g1 req] ∧
    (activeAlerts (raiseAlert (raiseAlert st g1 req).1 g2 req).1 req.patientId req.type).length
      = (activeAlerts st req.patientId req.type).length + 2 := by
  refine ⟨rfl, ?_⟩
  simp [raiseAlert, activeAlerts, mkAlertRow, List.filter_append, h]

theorem raiseAlert_no_dedup_witness :
    (raiseAlert [] "ALT-1" dupReq).1 = [] ++ [mkAlertRow "ALT-1" dupReq] ∧
    (activeAlerts (raiseAlert (raiseAlert [] "ALT-1" dupReq).1 "ALT-2" dupReq).1
        dupReq.patientId dupReq.type).length
      = (activeAlerts [] dupReq.patientId dupReq.type).length + 2 :=
  raiseAlert_no_dedup [] "ALT-1" "ALT-2" dupReq rfl

/-! Acknowledge (Mongo variant: Alert.findOne + alert.acknowledge from
the Alert model, which assigns unconditionally; PostgreSQL variant:
conditional UPDATE restricted to status = active). -/

/-- Alert.findOne({ alertId }). -/
def findAlert (st : List AlertRow) (aid : String) : Option AlertRow :=
  st.find? fun a => a.alertId == aid

/-- Alert.acknowledge(userId) of the Mongo Alert model: sets status,
acknowledgedAt and assignedTo with no precondition on the current status. -/
def ackUpdate (userId : String) (now : ℕ) (a : AlertRow) : AlertRow :=
  { a with status := "acknowledged", acknowledgedBy := some userId,
           acknowledgedAt := some now }

/-- PUT /api/alerts/:alertId/acknowledge (Mongo variant): 404 when the
alert id is unknown, otherwise acknowledge whatever the current status. -/
def acknowledgeMongo (st : List AlertRow) (aid userId : String) (now : ℕ) :
    Except String (List AlertRow) :=
  match findAlert st aid with
  | none => .error "Alert not found"
  | some _ => .ok (st.map fun b => if b.alertId == aid then ackUpdate userId now b else b)

/-- PUT /api/alerts/:alertId/acknowledge (PostgreSQL variant): UPDATE
restricted to alert_id = aid AND status = active; zero updated rows give
the combined not-found response. -/
def acknowledgePg (st : List AlertRow) (aid userId : String) (now : ℕ) :
    Except String (List AlertRow) :=
  match st.find? (fun b => b.alertId == aid && b.status == "active") with
  | none => .error "Alert not found or already processed"
  | some _ => .ok (st.map fun b =>
      if b.alertId == aid && b.status == "active" then ackUpdate userId now b else b)

/-- A resolved alert row used for the acknowledge claims. -/
def resolvedRow : AlertRow :=
  { alertId := "ALT-9", patientId := "P-001", type := "spo2", severity := "critical",
    status := "resolved", acknowledgedBy := none, acknowledgedAt := none }

/-- C7 counterexample: acknowledging an already-resolved alert through
the Mongo route succeeds and moves the alert to acknowledged instead of
failing with an invalid-state error. -/
theorem acknowledge_resolved_counterexample :
    resolvedRow.status = "resolved" ∧
    acknowledgeMongo [resolvedRow] "ALT-9" "U-1" 5 = .ok [ackUpdate "U-1" 5 resolvedRow] ∧
    (ackUpdate "U-1" 5 resolvedRow).status = "acknowledged" := by
  exact ⟨rfl, rfl, rfl⟩

/-- C7 amended: the Mongo acknowledge route fails with the not-found
response for an unknown alertId but otherwise acknowledges
unconditionally, recording the acting user and timestamp even for an
already-resolved alert; the PostgreSQL route updates only rows whose
status is active and answers unknown and already-processed alerts with
one and the same not-found response. -/
theorem acknowledge_amended :
    (∀ (st : List AlertRow) (aid uid : String) (now : ℕ),
      findAlert st aid = none → acknowledgeMongo st aid uid now = .error "Alert not found") ∧
    (∀ (st : List AlertRow) (aid uid : String) (now : ℕ) (a : AlertRow),
      findAlert st aid = some a →
        acknowledgeMongo st aid uid now =
          .ok (st.map fun b => if b.alertId == aid then ackUpdate uid now b else b) ∧
        (ackUpdate uid now a).status = "acknowledged" ∧
        (ackUpdate uid now a).acknowledgedBy = some uid ∧
        (ackUpdate uid now a).acknowledgedAt = some now) ∧
    (∀ (st : List AlertRow) (aid uid : String) (now : ℕ),
      st.find? (fun b => b.alertId == aid && b.status == "active") = none →
        acknowledgePg st aid uid now = .error "Alert not found or already processed") := by
  refine ⟨?_, ?_, ?_⟩
  · intro st aid uid now h
    simp [acknowledgeMongo, h]
  · intro st aid uid now a h
    exact ⟨by simp [acknowledgeMongo, h], rfl, rfl, rfl⟩
  · intro st aid uid now h
    simp [acknowledgePg, h]

theorem acknowledge_amended_witness :
    acknowledgeMongo [] "ALT-0" "U-1" 0 = .error "Alert not found" ∧
    acknowledgePg [resolvedRow] "ALT-9" "U-1" 0 = .error "Alert not found or already processed" ∧
    acknowledgeMongo [resolvedRow] "ALT-9" "U-2" 7 =
      .ok ([resolvedRow].map fun b => if b.alertId == "ALT-9" then ackUpdate "U-2" 7 b else b) :=
  ⟨acknowledge_amended.1 [] "ALT-0" "U-1" 0 rfl,
   acknowledge_amended.2.2 [resolvedRow] "ALT-9" "U-1" 0 (by decide),
   (acknowledge_amended.2.1 [resolvedRow] "ALT-9" "U-2" 7 resolvedRow (by decide)).1⟩

/-! POST /api/alerts (Mongo variant): the alert is saved, then the
patient lookup and notification dispatch run inside the same try block,
so a notification failure lands in the catch-all of the route. -/

/-- Request body of the Mongo POST /api/alerts. -/
structure AlertReqM where
  patientId : String
  type : String
  severity : String
  title : String
  message : String
  deriving DecidableEq

/-- The alert document saved by the Mongo POST /api/alerts (status
defaults to active, the id comes from the pre-save hook). -/
def mkMongoAlert (genId : String) (req : AlertReqM) : AlertRow :=
  { alertId := genId, patientId := req.patientId, type := req.type,
    severity := req.severity, status := "active",
    acknowledgedBy := none, acknowledgedAt := none }

/-- Response of the Mongo POST /api/alerts. -/
inductive RaiseResp where
  | created (a : AlertRow)
  | serverError (msg : String)
  deriving DecidableEq

/-- The Mongo POST /api/alerts: save the alert, then look up the patient
and await sendNotification; when the patient exists and the dispatch
throws, control jumps to the catch block, which logs and answers 500 —
after the alert was already saved. -/
def raiseAlertMongo (st : List AlertRow) (genId : String) (req : AlertReqM)
    (patientFound notifyFails : Bool) : List AlertRow × RaiseResp :=
  let row := mkMongoAlert genId req
  let saved := st ++ [row]
  if patientFound && notifyFails then
    (saved, .serverError "Failed to create alert")
  else
    (saved, .created row)

/-- A raise request used for the notification-failure claims. -/
def notifReq : AlertReqM :=
  { patientId := "P-001", type := "heartRate", severity := "critical",
    title := "High heart rate", message := "Heart rate above threshold" }

/-- C8 counterexample: when the notification dispatch fails during alert
creation, the route answers with the server error instead of the created
alert, even though the alert row was already saved. -/
theorem notifyFailure_counterexample :
    (raiseAlertMongo [] "ALT-1" notifReq true true).2 = .serverError "Failed to create alert" ∧
    (raiseAlertMongo [] "ALT-1" notifReq true true).2 ≠ .created (mkMongoAlert "ALT-1" notifReq) ∧
    (raiseAlertMongo [] "ALT-1" notifReq true true).1 = [mkMongoAlert "ALT-1" notifReq] := by
  refine ⟨?_, ?_, ?_⟩ <;> decide

/-- C8 amended: a notification-dispatch failure during alert creation is
caught and logged by the catch-all of the route; the saved alert row remains,
but the request fails with the 500 response instead of returning the
created alert. -/
theorem notifyFailure_amended (st : List AlertRow) (genId : String) (req : AlertReqM) :
    (raiseAlertMongo st genId req true true).1 = st ++ [mkMongoAlert genId req] ∧
    (raiseAlertMongo st genId req true true).2 = .serverError "Failed to create alert" := by
  exact ⟨rfl, rfl⟩

/-! POST /api/health-data ingestion (Mongo variant) together with the
healthDataSchema validators: value is required with min/max bounds for
heart rate (0-250), temperature (30-45) and spo2 (0-100), and bounded
when present for blood pressure; mongoose runs these on save, and a
violation rejects the save, which the route turns into the 500 answer. -/

/-- A vital as sent in the request body: a value plus an optional
quality tag (the bare-number form of the body has no quality). -/
structure VitalInput where
  value : ℚ
  quality : Option String
  deriving DecidableEq

/-- A vital sub-document as stored: heartRate?.value || heartRate for
the value and heartRate?.quality || good for the quality. -/
structure StoredVital where
  value : Option ℚ
  quality : String
  deriving DecidableEq

/-- The request body of POST /api/health-data (units and the temperature
method tag carry no logic and are omitted). -/
structure HealthBody where
  heartRate : Option VitalInput
  temperature : Option VitalInput
  spo2 : Option VitalInput
  bloodPressure : Option BPReading
  deriving DecidableEq

/-- The HealthData document constructed by the route before save. -/
structure HealthDoc where
  heartRate : StoredVital
  temperature : StoredVital
  spo2 : StoredVital
  bloodPressure : Option BPReading
  deriving DecidableEq

/-- The document construction of the route: values are copied as sent,
with no clamping, and quality defaults to good. -/
def buildHealthDoc (b : HealthBody) : HealthDoc :=
  { heartRate := { value := b.heartRate.map VitalInput.value
                   quality := (b.heartRate.bind VitalInput.quality).getD "good" }
    temperature := { value := b.temperature.map VitalInput.value
                     quality := (b.temperature.bind VitalInput.quality).getD "good" }
    spo2 := { value := b.spo2.map VitalInput.value
              quality := (b.spo2.bind VitalInput.quality).getD "good" }
    bloodPressure := b.bloodPressure }

/-- The healthDataSchema validators that mongoose runs on save. -/
def validHealthDoc (d : HealthDoc) : Bool :=
  (match d.heartRate.value with
    | some v => decide (0 ≤ v ∧ v ≤ 250)
    | none => false)
  && (match d.temperature.value with
    | some v => decide (30 ≤ v ∧ v ≤ 45)
    | none => false)
  && (match d.spo2.value with
    | some v => decide (0 ≤ v ∧ v ≤ 100)
    | none => false)
  && (match d.bloodPressure with
    | some bp => decide (60 ≤ bp.systolic ∧ bp.systolic ≤ 250
        ∧ 40 ≤ bp.diastolic ∧ bp.diastolic ≤ 150)
    | none => true)

/-- POST /api/health-data: build the document and save it; a validation
failure rejects the save and the route answers with the 500 error. -/
def ingestReading (b : HealthBody) : Except String HealthDoc :=
  let d := buildHealthDoc b
  if validHealthDoc d then .ok d else .error "Failed to process health data"

/-- A body whose heart-rate value 300 lies above the absolute sensor
range 0-250 while the other vitals are in range. -/
def glitchBody : HealthBody :=
  { heartRate := some { value := 300, quality := none }
    temperature := some { value := 36.5, quality := none }
    spo2 := some { value := 98, quality := none }
    bloodPressure := none }

/-- C9 counterexample: a reading whose heart rate 300 exceeds the
absolute sensor range is rejected by the schema validation rather than
stored, and the quality the route would store for it is good, never
poor. -/
theorem outOfRange_counterexample :
    ingestReading glitchBody = .error "Failed to process health data" ∧
    (buildHealthDoc glitchBody).heartRate.quality = "good" ∧
    (buildHealthDoc glitchBody).heartRate.quality ≠ "poor" := by
  refine ⟨?_, rfl, by decide⟩
  have hval : validHealthDoc (buildHealthDoc glitchBody) = false := by
    norm_num [validHealthDoc, buildHealthDoc, glitchBody]
  simp [ingestReading, hval]

/-- C9 amended: a present numeric vital outside its absolute sensor range
makes the ingestion request fail through the mongoose min/max validation
instead of being stored; the stored quality flag is the one sent by the
device, defaulting to good — the ingestion path itself never sets poor. -/
theorem outOfRange_amended :
    (∀ (b : HealthBody) (v : VitalInput), b.heartRate = some v → 250 < v.value →
      ingestReading b = .error "Failed to process health data") ∧
    (∀ (b : HealthBody) (v : VitalInput), b.heartRate = some v → v.quality = none →
      (buildHealthDoc b).heartRate.quality = "good") ∧
    (∀ b : HealthBody, (buildHealthDoc b).heartRate.quality = "poor" →
      b.heartRate.bind VitalInput.quality = some "poor") := by
  refine ⟨?_, ?_, ?_⟩
  · intro b v hb hv
    have hval : validHealthDoc (buildHealthDoc b) = false := by
      simp only [validHealthDoc, buildHealthDoc, hb, Option.map_some]
      simp [Bool.and_eq_false_iff, not_le.mpr hv]
    simp [ingestReading, hval]
  · intro b v hb hq
    simp [buildHealthDoc, hb, hq]
  · intro b h
    rcases hq : b.heartRate.bind VitalInput.quality with _ | q
    · simp [buildHealthDoc, hq] at h
    · simp only [buildHealthDoc, hq, Option.getD_some] at h
      rw [h]

theorem outOfRange_amended_witness :
    ingestReading glitchBody = .error "Failed to process health data" ∧
    (buildHealthDoc glitchBody).heartRate.quality = "good" :=
  ⟨outOfRange_amended.1 glitchBody { value := 300, quality := none } rfl (by norm_num),
   outOfRange_amended.2.1 glitchBody { value := 300, quality := none } rfl rfl⟩

end HealthMonitor
